import Mathlib

/-!
Shallow embedding of `example/ping/ping.py`: a USB echo-roundtrip tester.

The script finds a device by vendor/product id, best-effort detaches any
kernel driver, claims interface 0, reads the inbound endpoint's max packet
size, then for a fixed list of test vectors writes the payload to the OUT
endpoint, reads one reply from the IN endpoint, and reports a mismatch when
the reply differs from the payload.  Bytes are modelled as `List Nat`, the
USB device handle as an abstract stateful `Transport`, and each device call
is additionally recorded in an operation trace so that claims about which
I/O operations were attempted are provable.
-/

/-- Constants from the top of `ping.py`. -/
def VID : Nat := 0x1d6b

def PID : Nat := 0x0104

def INTERFACE : Nat := 0

def EP_IN : Nat := 0x81

def EP_OUT : Nat := 0x01

/-- One device I/O call, as issued by the script: `dev.write(ep, payload, ifc)`
or `dev.read(ep, size, ifc)`. -/
inductive Op where
  | write (ep : Nat) (payload : List Nat) (ifc : Nat)
  | read (ep : Nat) (size : Nat) (ifc : Nat)
  deriving DecidableEq, Repr

/-- The device handle: `write` returns the reported byte count (pyusb
`dev.write`), `read` either returns reply bytes or raises a transport fault
(`usb.core.USBError`, modelled by its error code).  Both advance an abstract
device state `σ`. -/
structure Transport (σ : Type) where
  write : σ → Nat → List Nat → Nat → Nat × σ
  read : σ → Nat → Nat → Nat → Except Nat (List Nat) × σ

/-- The two exception kinds the exchange loop can raise:
`RuntimeError` for a short write (line 42 of `ping.py`) and a propagated
`usb.core.USBError` from `dev.read`. -/
inductive PingError where
  | shortWrite (sent expected : Nat)
  | transport (code : Nat)
  deriving DecidableEq, Repr

deriving instance DecidableEq for Except

/-- Outcome recorded for one test vector: name, payload sent, bytes
received, and whether they matched (a mismatch is printed as a diagnostic
by the loop in `main`, not raised). -/
structure TestResult where
  name : String
  expected : List Nat
  actual : List Nat
  matched : Bool
  deriving DecidableEq, Repr

/-- `send_and_receive(dev, payload, pkt_size)` from `ping.py` lines 38-45:
write the payload to `EP_OUT`; if the reported count differs from the
payload length raise the short-write error (the read is never issued);
otherwise read up to `pkt_size` bytes from `EP_IN`, propagating any
transport fault.  Returns the new device state, the trace of device calls
made, and either the received bytes or the raised error. -/
def send_and_receive {σ : Type} (t : Transport σ) (s : σ) (payload : List Nat)
    (pkt_size : Nat) : σ × List Op × Except PingError (List Nat) :=
  let bytes_sent := (t.write s EP_OUT payload INTERFACE).1
  let s1 := (t.write s EP_OUT payload INTERFACE).2
  if bytes_sent ≠ payload.length then
    (s1, [Op.write EP_OUT payload INTERFACE],
      Except.error (PingError.shortWrite bytes_sent payload.length))
  else
    match (t.read s1 EP_IN pkt_size INTERFACE).1 with
    | Except.error code =>
        ((t.read s1 EP_IN pkt_size INTERFACE).2,
          [Op.write EP_OUT payload INTERFACE, Op.read EP_IN pkt_size INTERFACE],
          Except.error (PingError.transport code))
    | Except.ok data =>
        ((t.read s1 EP_IN pkt_size INTERFACE).2,
          [Op.write EP_OUT payload INTERFACE, Op.read EP_IN pkt_size INTERFACE],
          Except.ok data)

/-- The test loop of `main` (lines 63-66): run `send_and_receive` on each
vector in order, recording a `TestResult` whose `matched` field is the
comparison `response != data` the script prints on; a raised error aborts
the loop and propagates.  Also returns the final device state and the
concatenated trace of device calls. -/
def runTests {σ : Type} (t : Transport σ) (s : σ) (pkt_size : Nat) :
    List (String × List Nat) → σ × List Op × Except PingError (List TestResult)
  | [] => (s, [], Except.ok [])
  | (nm, data) :: rest =>
    match send_and_receive t s data pkt_size with
    | (s1, tr1, Except.error e) => (s1, tr1, Except.error e)
    | (s1, tr1, Except.ok response) =>
      match runTests t s1 pkt_size rest with
      | (s2, tr2, Except.error e) => (s2, tr1 ++ tr2, Except.error e)
      | (s2, tr2, Except.ok results) =>
        (s2, tr1 ++ tr2,
          Except.ok ({ name := nm, expected := data, actual := response,
                       matched := decide (response = data) } :: results))

/-- A USB endpoint descriptor, with the fields `endpoint_config` reads. -/
structure Endpoint where
  bEndpointAddress : Nat
  bmAttributes : Nat
  wMaxPacketSize : Nat
  bInterval : Nat
  deriving DecidableEq, Repr

/-- `endpoint_config(dev)` from `ping.py` lines 22-36: iterate the active
interface's endpoints, and return the `wMaxPacketSize` of the (last)
endpoint whose address equals `EP_IN`; `pack_size` starts at 0 and stays 0
when no such endpoint exists. -/
def endpoint_config (eps : List Endpoint) : Nat :=
  eps.foldl
    (fun pack_size ep =>
      if ep.bEndpointAddress = EP_IN then ep.wMaxPacketSize else pack_size)
    0

/-- The fixed test-vector list built in `main` (lines 55-61); byte strings
written out as byte lists.  The last vector is `b"A" * (pkt_size - 1)`;
Python's negative repetition yields `b""` when `pkt_size = 0`, which `Nat`
truncated subtraction models exactly. -/
def testVectors (pkt_size : Nat) : List (String × List Nat) :=
  [("Text", [0x48, 0x65, 0x6c, 0x6c, 0x6f, 0x20, 0x55, 0x53, 0x42, 0x21]),
   ("Digits", [0x31, 0x32, 0x33, 0x34, 0x35, 0x36, 0x37, 0x38, 0x39, 0x30]),
   ("Binary", [0x00, 0x01, 0x02, 0x03, 0x04]),
   ("String with NULL", [0x41, 0x42, 0x43, 0x00, 0x44, 0x45, 0x46]),
   ("pkt_size-1 bytes", List.replicate (pkt_size - 1) 0x41)]

/-- Python exception kinds relevant to `prepare_device`:
`NotImplementedError`, `usb.core.USBError` (with an error code), and any
other exception class (indexed by an arbitrary code). -/
inductive PyExc where
  | notImplemented
  | usbError (code : Nat)
  | other (code : Nat)
  deriving DecidableEq, Repr

/-- The exception classes named in the `except` clause of `prepare_device`
(line 18): `(NotImplementedError, usb.core.USBError)`. -/
def toleratedDetachExc : PyExc → Bool
  | PyExc.notImplemented => true
  | PyExc.usbError _ => true
  | PyExc.other _ => false

/-- `prepare_device(dev)` from `ping.py` lines 13-20.  `detachStep` is the
exception (if any) raised inside the `try` block (the
`is_kernel_driver_active`/`detach_kernel_driver` step); `claimStep` is the
exception (if any) raised by `usb.util.claim_interface`.  Returns the
number of times `claim_interface` was invoked, and either success or the
propagated exception. -/
def prepare_device (detachStep claimStep : Option PyExc) :
    Nat × Except PyExc Unit :=
  match detachStep with
  | some e =>
    if toleratedDetachExc e then
      match claimStep with
      | some ce => (1, Except.error ce)
      | none => (1, Except.ok ())
    else (0, Except.error e)
  | none =>
    match claimStep with
    | some ce => (1, Except.error ce)
    | none => (1, Except.ok ())

/-- How the process ends: a plain exit code (`sys.exit(1)` / the final
`exit(0)`), or termination by an uncaught exception of the given kind. -/
inductive ExitStatus where
  | code (n : Nat)
  | uncaughtExc (e : PyExc)
  | uncaughtErr (e : PingError)
  deriving DecidableEq, Repr

/-- Observable outcome of one program run: how many times the interface was
claimed, whether `release_interface` was reached, and the exit status. -/
structure MainOutcome where
  claimCalls : Nat
  released : Bool
  status : ExitStatus
  deriving DecidableEq, Repr

/-- Everything `main` needs from a discovered device: its transport
behaviour and initial state, the outcomes of the detach and claim steps,
and its endpoint descriptors. -/
structure Device (σ : Type) where
  transport : Transport σ
  initState : σ
  detachStep : Option PyExc
  claimStep : Option PyExc
  endpoints : List Endpoint

/-- `main()` plus the top-level `exit(0)` from `ping.py` lines 47-72.
`dev = none` models `usb.core.find` returning `None` (exit code 1).
Otherwise: `prepare_device`, `endpoint_config`, the test loop, and
`release_interface` — which the script calls only after the loop, so a
raised error leaves `released = false` and terminates the process as an
uncaught exception. -/
def mainRun {σ : Type} (dev : Option (Device σ)) : MainOutcome :=
  match dev with
  | none => { claimCalls := 0, released := false, status := ExitStatus.code 1 }
  | some d =>
    match (prepare_device d.detachStep d.claimStep).2 with
    | Except.error e =>
      { claimCalls := (prepare_device d.detachStep d.claimStep).1,
        released := false, status := ExitStatus.uncaughtExc e }
    | Except.ok _ =>
      match (runTests d.transport d.initState (endpoint_config d.endpoints)
          (testVectors (endpoint_config d.endpoints))).2.2 with
      | Except.error e =>
        { claimCalls := (prepare_device d.detachStep d.claimStep).1,
          released := false, status := ExitStatus.uncaughtErr e }
      | Except.ok _ =>
        { claimCalls := (prepare_device d.detachStep d.claimStep).1,
          released := true, status := ExitStatus.code 0 }

/-! ### Helper lemmas about one exchange -/

/-- If the reported write count differs from the payload length,
`send_and_receive` raises the short-write error and its trace holds only
the write: the read is never issued. -/
theorem send_and_receive_eq_short {σ : Type} (t : Transport σ) (s : σ)
    (data : List Nat) (pkt : Nat)
    (hw : (t.write s EP_OUT data INTERFACE).1 ≠ data.length) :
    send_and_receive t s data pkt =
      ((t.write s EP_OUT data INTERFACE).2, [Op.write EP_OUT data INTERFACE],
        Except.error (PingError.shortWrite (t.write s EP_OUT data INTERFACE).1
          data.length)) := by
  simp [send_and_receive, hw]

/-- If the write count is right and the read returns `resp`,
`send_and_receive` succeeds with `resp`. -/
theorem send_and_receive_eq_ok {σ : Type} (t : Transport σ) (s : σ)
    (data resp : List Nat) (pkt : Nat)
    (hw : (t.write s EP_OUT data INTERFACE).1 = data.length)
    (hr : (t.read (t.write s EP_OUT data INTERFACE).2 EP_IN pkt INTERFACE).1 =
      Except.ok resp) :
    send_and_receive t s data pkt =
      ((t.read (t.write s EP_OUT data INTERFACE).2 EP_IN pkt INTERFACE).2,
        [Op.write EP_OUT data INTERFACE, Op.read EP_IN pkt INTERFACE],
        Except.ok resp) := by
  simp [send_and_receive, hw, hr]

/-- If the write count is right and the read faults with `code`,
`send_and_receive` raises the transport error. -/
theorem send_and_receive_eq_fault {σ : Type} (t : Transport σ) (s : σ)
    (data : List Nat) (pkt code : Nat)
    (hw : (t.write s EP_OUT data INTERFACE).1 = data.length)
    (hr : (t.read (t.write s EP_OUT data INTERFACE).2 EP_IN pkt INTERFACE).1 =
      Except.error code) :
    send_and_receive t s data pkt =
      ((t.read (t.write s EP_OUT data INTERFACE).2 EP_IN pkt INTERFACE).2,
        [Op.write EP_OUT data INTERFACE, Op.read EP_IN pkt INTERFACE],
        Except.error (PingError.transport code)) := by
  simp [send_and_receive, hw, hr]

/-! ### Helper lemmas about the loop -/

/-- An exchange that raises aborts the loop with that error. -/
theorem runTests_cons_err {σ : Type} (t : Transport σ) (s s1 : σ) (pkt : Nat)
    (nm : String) (data : List Nat) (rest : List (String × List Nat))
    (tr1 : List Op) (e : PingError)
    (h : send_and_receive t s data pkt = (s1, tr1, Except.error e)) :
    runTests t s pkt ((nm, data) :: rest) = (s1, tr1, Except.error e) := by
  simp [runTests, h]

/-- An exchange that returns `resp` records its result and the loop
continues with the remaining vectors. -/
theorem runTests_cons_ok {σ : Type} (t : Transport σ) (s s1 : σ) (pkt : Nat)
    (nm : String) (data resp : List Nat) (rest : List (String × List Nat))
    (tr1 : List Op)
    (h : send_and_receive t s data pkt = (s1, tr1, Except.ok resp)) :
    runTests t s pkt ((nm, data) :: rest) =
      ((runTests t s1 pkt rest).1,
        tr1 ++ (runTests t s1 pkt rest).2.1,
        ((runTests t s1 pkt rest).2.2).map
          (fun rs => { name := nm, expected := data, actual := resp,
                       matched := decide (resp = data) } :: rs)) := by
  rcases hrt : runTests t s1 pkt rest with ⟨s2, tr2, r2⟩
  rcases r2 with e | res <;> simp [runTests, h, hrt, Except.map]

/-- Running a concatenation of vector lists: if the first part raises, that
is the result; otherwise the second part runs from the reached state, its
trace is appended and its results are prefixed with the first part's. -/
theorem runTests_append {σ : Type} (t : Transport σ) (pkt : Nat) :
    ∀ (xs ys : List (String × List Nat)) (s : σ),
    runTests t s pkt (xs ++ ys) =
      match runTests t s pkt xs with
      | (s1, tr1, Except.error e) => (s1, tr1, Except.error e)
      | (s1, tr1, Except.ok res1) =>
        ((runTests t s1 pkt ys).1,
          tr1 ++ (runTests t s1 pkt ys).2.1,
          ((runTests t s1 pkt ys).2.2).map (fun res2 => res1 ++ res2))
  | [], ys, s => by
    rcases hy : runTests t s pkt ys with ⟨s2, tr2, r2⟩
    rcases r2 with e | res <;> simp [runTests, hy, Except.map]
  | (nm, data) :: xs, ys, s => by
    rcases hsr : send_and_receive t s data pkt with ⟨s1, tr1, r1⟩
    rcases r1 with e | resp
    · rw [List.cons_append, runTests_cons_err t s s1 pkt nm data (xs ++ ys) tr1 e hsr,
        runTests_cons_err t s s1 pkt nm data xs tr1 e hsr]
    · rw [List.cons_append, runTests_cons_ok t s s1 pkt nm data resp (xs ++ ys) tr1 hsr,
        runTests_cons_ok t s s1 pkt nm data resp xs tr1 hsr,
        runTests_append t pkt xs ys s1]
      rcases hx : runTests t s1 pkt xs with ⟨s2, tr2, r2⟩
      rcases r2 with e | res2
      · simp [Except.map]
      · rcases hy : runTests t s2 pkt ys with ⟨s3, tr3, r3⟩
        rcases r3 with e | res3 <;> simp [Except.map, hy]

/-! ### Lossless echo transports -/

/-- A transport performs a lossless echo when every write on the OUT
endpoint reports the full payload length and the read that follows it
returns exactly the bytes just written, for any read size. -/
def LosslessEcho {σ : Type} (t : Transport σ) : Prop :=
  ∀ (s : σ) (p : List Nat) (n : Nat),
    (t.write s EP_OUT p INTERFACE).1 = p.length ∧
    (t.read (t.write s EP_OUT p INTERFACE).2 EP_IN n INTERFACE).1 = Except.ok p

/-- The result an echoing transport produces for one vector. -/
def echoResult (v : String × List Nat) : TestResult :=
  { name := v.1, expected := v.2, actual := v.2, matched := true }

/-- The device calls the loop makes for a vector list when nothing raises:
one write and one read per vector, in order. -/
def echoTraceAll (pkt : Nat) : List (String × List Nat) → List Op
  | [] => []
  | v :: tl =>
    Op.write EP_OUT v.2 INTERFACE :: Op.read EP_IN pkt INTERFACE ::
      echoTraceAll pkt tl

/-- Over a lossless echo transport the loop raises nothing, issues exactly
one write and one read per vector, and every result matches. -/
theorem runTests_echo {σ : Type} (t : Transport σ) (h : LosslessEcho t)
    (pkt : Nat) :
    ∀ (tests : List (String × List Nat)) (s : σ),
    (runTests t s pkt tests).2 =
      (echoTraceAll pkt tests, Except.ok (tests.map echoResult))
  | [], s => rfl
  | (nm, data) :: tl, s => by
    obtain ⟨hw, hr⟩ := h s data pkt
    rw [runTests_cons_ok t s _ pkt nm data data tl _
      (send_and_receive_eq_ok t s data data pkt hw hr)]
    have ih := runTests_echo t h pkt tl
      (t.read (t.write s EP_OUT data INTERFACE).2 EP_IN pkt INTERFACE).2
    rcases htl : runTests t
        (t.read (t.write s EP_OUT data INTERFACE).2 EP_IN pkt INTERFACE).2
        pkt tl with ⟨s2, tr2, r2⟩
    rw [htl] at ih
    simp only [Prod.mk.injEq] at ih
    simp [echoTraceAll, echoResult, ih.1, ih.2, Except.map, List.map_cons]

/-! ### Concrete transports and devices used as test instances -/

/-- A perfect echo device: state is the last payload written; reads return
it unchanged. -/
def echoT : Transport (List Nat) :=
  { write := fun _ _ p _ => (p.length, p),
    read := fun s _ _ _ => (Except.ok s, s) }

/-- `echoT` is a lossless echo. -/
theorem echoT_lossless : LosslessEcho echoT :=
  fun _ _ _ => ⟨rfl, rfl⟩

/-- A device that always reports 0 bytes written. -/
def shortT : Transport Unit :=
  { write := fun s _ _ _ => (0, s),
    read := fun s _ _ _ => (Except.ok [], s) }

/-- An echoing device whose read stalls (error code 32, `EPIPE`) from the
third read on: state is (reads so far, last payload written). -/
def faultT : Transport (Nat × List Nat) :=
  { write := fun st _ p _ => (p.length, (st.1, p)),
    read := fun st _ _ _ =>
      if st.1 ≥ 2 then (Except.error 32, (st.1 + 1, st.2))
      else (Except.ok st.2, (st.1 + 1, st.2)) }

/-- A device that echoes every payload with a spurious `0x5a` byte
prepended. -/
def mismatchT : Transport (List Nat) :=
  { write := fun _ _ p _ => (p.length, p),
    read := fun s _ _ _ => (Except.ok (0x5a :: s), s) }

/-- A discovered device wrapping `echoT`, with one inbound endpoint of max
packet size 8. -/
def echoDevice : Device (List Nat) :=
  { transport := echoT, initState := [], detachStep := none,
    claimStep := none, endpoints := [⟨0x81, 2, 8, 0⟩] }

/-- A discovered device wrapping `faultT` (read stalls on vector 3). -/
def faultDevice : Device (Nat × List Nat) :=
  { transport := faultT, initState := (0, []), detachStep := none,
    claimStep := none, endpoints := [⟨0x81, 2, 8, 0⟩] }

/-! ### Claim theorems -/

/-- Claim C1: for every non-empty sequence of test vectors, if the
transport echoes every payload losslessly (each read returns exactly the
bytes just written), the run produces one result per vector with
`matched = true`, in the same order as the input vectors. -/
theorem lossless_echo_all_matched {σ : Type} (t : Transport σ)
    (h : LosslessEcho t) (tests : List (String × List Nat))
    (_hne : tests ≠ []) (s : σ) (pkt : Nat) :
    (runTests t s pkt tests).2.2 =
      Except.ok (tests.map (fun v =>
        { name := v.1, expected := v.2, actual := v.2, matched := true })) := by
  have hrun := runTests_echo t h pkt tests s
  rw [hrun]
  simp [echoResult]

/-- Witness for C1: `echoT` on a one-vector list. -/
theorem lossless_echo_all_matched_witness :
    LosslessEcho echoT ∧
    ([("Text", [1, 2, 3])] : List (String × List Nat)) ≠ [] ∧
    (runTests echoT [] 64 [("Text", [1, 2, 3])]).2.2 =
      Except.ok ([(("Text", [1, 2, 3]) : String × List Nat)].map (fun v =>
        { name := v.1, expected := v.2, actual := v.2, matched := true })) :=
  ⟨echoT_lossless, by simp,
    lossless_echo_all_matched echoT echoT_lossless [("Text", [1, 2, 3])]
      (by simp) [] 64⟩

/-- Claim C2: a write whose reported count differs from the payload length
raises the short-write error, the trace for that vector holds only the
write (no read is attempted), and the run aborts with that error. -/
theorem short_write_error_no_read {σ : Type} (t : Transport σ) (s : σ)
    (nm : String) (data : List Nat) (pkt : Nat)
    (rest : List (String × List Nat))
    (hw : (t.write s EP_OUT data INTERFACE).1 ≠ data.length) :
    send_and_receive t s data pkt =
      ((t.write s EP_OUT data INTERFACE).2, [Op.write EP_OUT data INTERFACE],
        Except.error (PingError.shortWrite
          (t.write s EP_OUT data INTERFACE).1 data.length)) ∧
    runTests t s pkt ((nm, data) :: rest) =
      ((t.write s EP_OUT data INTERFACE).2, [Op.write EP_OUT data INTERFACE],
        Except.error (PingError.shortWrite
          (t.write s EP_OUT data INTERFACE).1 data.length)) :=
  ⟨send_and_receive_eq_short t s data pkt hw,
    runTests_cons_err t s _ pkt nm data rest _ _
      (send_and_receive_eq_short t s data pkt hw)⟩

/-- Witness for C2: `shortT` reports 0 bytes written for a 1-byte payload. -/
theorem short_write_error_no_read_witness :
    (shortT.write () EP_OUT [1] INTERFACE).1 ≠ ([1] : List Nat).length ∧
    (send_and_receive shortT () [1] 64 =
      ((), [Op.write EP_OUT [1] INTERFACE],
        Except.error (PingError.shortWrite 0 1)) ∧
    runTests shortT () 64 [("Text", [1])] =
      ((), [Op.write EP_OUT [1] INTERFACE],
        Except.error (PingError.shortWrite 0 1))) :=
  ⟨by decide, short_write_error_no_read shortT () "Text" [1] 64 [] (by decide)⟩

/-- Claim C3: if the run reaches vector k having produced results for the
earlier vectors and the read for vector k reports a transport fault, the
whole run aborts by propagating the transport error: the trace ends with
the single write/read for vector k (no retry, nothing for later vectors),
and no result list is produced for vectors k through n. -/
theorem transport_fault_aborts_run {σ : Type} (t : Transport σ) (s s1 : σ)
    (pkt : Nat) (pre rest : List (String × List Nat)) (tr1 : List Op)
    (res1 : List TestResult) (nm : String) (data : List Nat) (code : Nat)
    (hpre : runTests t s pkt pre = (s1, tr1, Except.ok res1))
    (hw : (t.write s1 EP_OUT data INTERFACE).1 = data.length)
    (hr : (t.read (t.write s1 EP_OUT data INTERFACE).2 EP_IN pkt
      INTERFACE).1 = Except.error code) :
    runTests t s pkt (pre ++ (nm, data) :: rest) =
      ((t.read (t.write s1 EP_OUT data INTERFACE).2 EP_IN pkt INTERFACE).2,
        tr1 ++ [Op.write EP_OUT data INTERFACE, Op.read EP_IN pkt INTERFACE],
        Except.error (PingError.transport code)) := by
  rw [runTests_append t pkt pre ((nm, data) :: rest) s, hpre]
  have hc := runTests_cons_err t s1 _ pkt nm data rest _ _
    (send_and_receive_eq_fault t s1 data pkt code hw hr)
  simp [hc, Except.map]

/-- Witness for C3: `faultT` echoes vectors 1 and 2 and stalls on the read
of vector 3 of 5, so the whole run aborts with the transport error. -/
theorem transport_fault_aborts_run_witness :
    runTests faultT (0, []) 64
        [("Text", [0x48, 0x65, 0x6c, 0x6c, 0x6f, 0x20, 0x55, 0x53, 0x42, 0x21]),
         ("Digits", [0x31, 0x32, 0x33, 0x34, 0x35, 0x36, 0x37, 0x38, 0x39, 0x30])] =
      ((2, [0x31, 0x32, 0x33, 0x34, 0x35, 0x36, 0x37, 0x38, 0x39, 0x30]),
        [Op.write EP_OUT [0x48, 0x65, 0x6c, 0x6c, 0x6f, 0x20, 0x55, 0x53, 0x42, 0x21] INTERFACE,
         Op.read EP_IN 64 INTERFACE,
         Op.write EP_OUT [0x31, 0x32, 0x33, 0x34, 0x35, 0x36, 0x37, 0x38, 0x39, 0x30] INTERFACE,
         Op.read EP_IN 64 INTERFACE],
        Except.ok
          [{ name := "Text",
             expected := [0x48, 0x65, 0x6c, 0x6c, 0x6f, 0x20, 0x55, 0x53, 0x42, 0x21],
             actual := [0x48, 0x65, 0x6c, 0x6c, 0x6f, 0x20, 0x55, 0x53, 0x42, 0x21],
             matched := true },
           { name := "Digits",
             expected := [0x31, 0x32, 0x33, 0x34, 0x35, 0x36, 0x37, 0x38, 0x39, 0x30],
             actual := [0x31, 0x32, 0x33, 0x34, 0x35, 0x36, 0x37, 0x38, 0x39, 0x30],
             matched := true }]) ∧
    runTests faultT (0, []) 64
        ([("Text", [0x48, 0x65, 0x6c, 0x6c, 0x6f, 0x20, 0x55, 0x53, 0x42, 0x21]),
          ("Digits", [0x31, 0x32, 0x33, 0x34, 0x35, 0x36, 0x37, 0x38, 0x39, 0x30])] ++
          ("Binary", [0x00, 0x01, 0x02, 0x03, 0x04]) ::
          [("String with NULL", [0x41, 0x42, 0x43, 0x00, 0x44, 0x45, 0x46]),
           ("pkt_size-1 bytes", List.replicate 63 0x41)]) =
      ((3, [0x00, 0x01, 0x02, 0x03, 0x04]),
        [Op.write EP_OUT [0x48, 0x65, 0x6c, 0x6c, 0x6f, 0x20, 0x55, 0x53, 0x42, 0x21] INTERFACE,
         Op.read EP_IN 64 INTERFACE,
         Op.write EP_OUT [0x31, 0x32, 0x33, 0x34, 0x35, 0x36, 0x37, 0x38, 0x39, 0x30] INTERFACE,
         Op.read EP_IN 64 INTERFACE] ++
          [Op.write EP_OUT [0x00, 0x01, 0x02, 0x03, 0x04] INTERFACE,
           Op.read EP_IN 64 INTERFACE],
        Except.error (PingError.transport 32)) :=
  ⟨by decide,
    transport_fault_aborts_run faultT (0, [])
      (2, [0x31, 0x32, 0x33, 0x34, 0x35, 0x36, 0x37, 0x38, 0x39, 0x30]) 64
      [("Text", [0x48, 0x65, 0x6c, 0x6c, 0x6f, 0x20, 0x55, 0x53, 0x42, 0x21]),
       ("Digits", [0x31, 0x32, 0x33, 0x34, 0x35, 0x36, 0x37, 0x38, 0x39, 0x30])]
      [("String with NULL", [0x41, 0x42, 0x43, 0x00, 0x44, 0x45, 0x46]),
       ("pkt_size-1 bytes", List.replicate 63 0x41)]
      [Op.write EP_OUT [0x48, 0x65, 0x6c, 0x6c, 0x6f, 0x20, 0x55, 0x53, 0x42, 0x21] INTERFACE,
       Op.read EP_IN 64 INTERFACE,
       Op.write EP_OUT [0x31, 0x32, 0x33, 0x34, 0x35, 0x36, 0x37, 0x38, 0x39, 0x30] INTERFACE,
       Op.read EP_IN 64 INTERFACE]
      [{ name := "Text",
         expected := [0x48, 0x65, 0x6c, 0x6c, 0x6f, 0x20, 0x55, 0x53, 0x42, 0x21],
         actual := [0x48, 0x65, 0x6c, 0x6c, 0x6f, 0x20, 0x55, 0x53, 0x42, 0x21],
         matched := true },
       { name := "Digits",
         expected := [0x31, 0x32, 0x33, 0x34, 0x35, 0x36, 0x37, 0x38, 0x39, 0x30],
         actual := [0x31, 0x32, 0x33, 0x34, 0x35, 0x36, 0x37, 0x38, 0x39, 0x30],
         matched := true }]
      "Binary" [0x00, 0x01, 0x02, 0x03, 0x04] 32
      (by decide) (by decide) (by decide)⟩

/-- Claim C5: if the reply's bytes differ from the payload, the vector's
result records `matched = false` with `actual` holding exactly the bytes
the transport returned; no error is raised for it and the loop continues
with the remaining vectors (the mismatch is only the printed diagnostic the
`matched` field models). -/
theorem mismatch_recorded_not_error {σ : Type} (t : Transport σ) (s : σ)
    (pkt : Nat) (nm : String) (data resp : List Nat)
    (rest : List (String × List Nat))
    (hw : (t.write s EP_OUT data INTERFACE).1 = data.length)
    (hr : (t.read (t.write s EP_OUT data INTERFACE).2 EP_IN pkt
      INTERFACE).1 = Except.ok resp)
    (hne : resp ≠ data) :
    runTests t s pkt ((nm, data) :: rest) =
      ((runTests t (t.read (t.write s EP_OUT data INTERFACE).2 EP_IN pkt
          INTERFACE).2 pkt rest).1,
        [Op.write EP_OUT data INTERFACE, Op.read EP_IN pkt INTERFACE] ++
          (runTests t (t.read (t.write s EP_OUT data INTERFACE).2 EP_IN pkt
            INTERFACE).2 pkt rest).2.1,
        ((runTests t (t.read (t.write s EP_OUT data INTERFACE).2 EP_IN pkt
            INTERFACE).2 pkt rest).2.2).map
          (fun rs => { name := nm, expected := data, actual := resp,
                       matched := false } :: rs)) := by
  rw [runTests_cons_ok t s _ pkt nm data resp rest _
    (send_and_receive_eq_ok t s data resp pkt hw hr)]
  simp [hne]

/-- Witness for C5: `mismatchT` prepends a spurious byte to the echo. -/
theorem mismatch_recorded_not_error_witness :
    (mismatchT.write [] EP_OUT [1] INTERFACE).1 = ([1] : List Nat).length ∧
    (mismatchT.read (mismatchT.write [] EP_OUT [1] INTERFACE).2 EP_IN 64
      INTERFACE).1 = Except.ok [0x5a, 1] ∧
    ([0x5a, 1] : List Nat) ≠ [1] ∧
    runTests mismatchT [] 64 [("Text", [1])] =
      ([1], [Op.write EP_OUT [1] INTERFACE, Op.read EP_IN 64 INTERFACE],
        Except.ok [{ name := "Text", expected := [1], actual := [0x5a, 1],
                     matched := false }]) :=
  ⟨rfl, rfl, by decide, by
    simpa using mismatch_recorded_not_error mismatchT [] 64 "Text" [1]
      [0x5a, 1] [] rfl rfl (by decide)⟩

/-- Claim C6: the default test-vector set includes a boundary payload of
length exactly `maxTransferUnit - 1` (repeated `b"A"`), where
`maxTransferUnit` is the max packet size `endpoint_config` reports for the
inbound endpoint; over a lossless echo this vector's result matches. -/
theorem boundary_vector_one_below_mtu {σ : Type} (t : Transport σ) (s : σ)
    (eps : List Endpoint) (he : LosslessEcho t)
    (hp : 0 < endpoint_config eps) :
    ("pkt_size-1 bytes", List.replicate (endpoint_config eps - 1) 0x41) ∈
      testVectors (endpoint_config eps) ∧
    (List.replicate (endpoint_config eps - 1) 0x41).length + 1 =
      endpoint_config eps ∧
    ∃ rs, (runTests t s (endpoint_config eps)
        (testVectors (endpoint_config eps))).2.2 = Except.ok rs ∧
      { name := "pkt_size-1 bytes",
        expected := List.replicate (endpoint_config eps - 1) 0x41,
        actual := List.replicate (endpoint_config eps - 1) 0x41,
        matched := true } ∈ rs := by
  refine ⟨by simp [testVectors], ?_, ?_⟩
  · simp
    omega
  · refine ⟨(testVectors (endpoint_config eps)).map echoResult, ?_, ?_⟩
    · rw [runTests_echo t he (endpoint_config eps)
        (testVectors (endpoint_config eps)) s]
    · exact List.mem_map.mpr
        ⟨("pkt_size-1 bytes", List.replicate (endpoint_config eps - 1) 0x41),
          by simp [testVectors], rfl⟩

/-- Witness for C6: one inbound endpoint of max packet size 8 and `echoT`. -/
theorem boundary_vector_one_below_mtu_witness :
    LosslessEcho echoT ∧
    0 < endpoint_config [⟨0x81, 2, 8, 0⟩] ∧
    (("pkt_size-1 bytes",
        List.replicate (endpoint_config [⟨0x81, 2, 8, 0⟩] - 1) 0x41) ∈
      testVectors (endpoint_config [⟨0x81, 2, 8, 0⟩]) ∧
    (List.replicate (endpoint_config [⟨0x81, 2, 8, 0⟩] - 1) 0x41).length + 1 =
      endpoint_config [⟨0x81, 2, 8, 0⟩] ∧
    ∃ rs, (runTests echoT [] (endpoint_config [⟨0x81, 2, 8, 0⟩])
        (testVectors (endpoint_config [⟨0x81, 2, 8, 0⟩]))).2.2 =
        Except.ok rs ∧
      { name := "pkt_size-1 bytes",
        expected := List.replicate (endpoint_config [⟨0x81, 2, 8, 0⟩] - 1) 0x41,
        actual := List.replicate (endpoint_config [⟨0x81, 2, 8, 0⟩] - 1) 0x41,
        matched := true } ∈ rs) :=
  ⟨echoT_lossless, by decide,
    boundary_vector_one_below_mtu echoT [] [⟨0x81, 2, 8, 0⟩] echoT_lossless
      (by decide)⟩

/-- Claim C7: the program exits with status 0 when the test loop runs to
completion (whatever the results contain), and with status 1 when no device
matching the vendor/product pair is found. -/
theorem exit_status_zero_and_one {σ : Type} (d : Device σ)
    (res : List TestResult)
    (hprep : (prepare_device d.detachStep d.claimStep).2 = Except.ok ())
    (hrun : (runTests d.transport d.initState (endpoint_config d.endpoints)
        (testVectors (endpoint_config d.endpoints))).2.2 = Except.ok res) :
    (mainRun (some d)).status = ExitStatus.code 0 ∧
    (mainRun (none : Option (Device σ))).status = ExitStatus.code 1 := by
  exact ⟨by simp [mainRun, hprep, hrun], rfl⟩

/-- Witness for C7: `echoDevice` completes the loop. -/
theorem exit_status_zero_and_one_witness :
    (prepare_device echoDevice.detachStep echoDevice.claimStep).2 =
      Except.ok () ∧
    (runTests echoDevice.transport echoDevice.initState
        (endpoint_config echoDevice.endpoints)
        (testVectors (endpoint_config echoDevice.endpoints))).2.2 =
      Except.ok ((testVectors 8).map echoResult) ∧
    ((mainRun (some echoDevice)).status = ExitStatus.code 0 ∧
      (mainRun (none : Option (Device (List Nat)))).status =
        ExitStatus.code 1) :=
  ⟨rfl, by decide,
    exit_status_zero_and_one echoDevice ((testVectors 8).map echoResult)
      rfl (by decide)⟩

/-- Claim C8: the detach step tolerates exactly two fault conditions —
`NotImplementedError` and the generic transport error — which are swallowed
only there (the run then behaves as if the detach step succeeded); any
other exception of the detach step propagates with the interface never
claimed, and any exception of the later claim step propagates. -/
theorem detach_tolerates_exactly_two :
    (∀ cs, prepare_device (some PyExc.notImplemented) cs =
      prepare_device none cs) ∧
    (∀ c cs, prepare_device (some (PyExc.usbError c)) cs =
      prepare_device none cs) ∧
    (∀ n cs, prepare_device (some (PyExc.other n)) cs =
      (0, Except.error (PyExc.other n))) ∧
    (∀ e, (prepare_device none (some e)).2 = Except.error e) := by
  refine ⟨fun cs => ?_, fun c cs => ?_, fun n cs => ?_, fun e => rfl⟩ <;>
    cases cs <;> rfl

/-- Claim C9: when the active interface exposes no endpoint with address
`EP_IN = 0x81`, `endpoint_config` returns 0, the boundary vector becomes
the empty byte string, and the run proceeds — over a lossless echo it
completes, having written the empty payload for that vector. -/
theorem missing_inbound_endpoint_empty_boundary {σ : Type} (t : Transport σ)
    (s : σ) (eps : List Endpoint)
    (h : ∀ ep ∈ eps, ep.bEndpointAddress ≠ EP_IN) (he : LosslessEcho t) :
    endpoint_config eps = 0 ∧
    ("pkt_size-1 bytes", ([] : List Nat)) ∈
      testVectors (endpoint_config eps) ∧
    (runTests t s (endpoint_config eps)
        (testVectors (endpoint_config eps))).2.2 =
      Except.ok ((testVectors 0).map echoResult) ∧
    Op.write EP_OUT [] INTERFACE ∈
      (runTests t s (endpoint_config eps)
        (testVectors (endpoint_config eps))).2.1 := by
  have h0 : endpoint_config eps = 0 := by
    have hgen : ∀ (l : List Endpoint),
        (∀ ep ∈ l, ep.bEndpointAddress ≠ EP_IN) → ∀ acc : Nat,
        l.foldl (fun pack_size ep =>
          if ep.bEndpointAddress = EP_IN then ep.wMaxPacketSize
          else pack_size) acc = acc := by
      intro l
      induction l with
      | nil => intro _ acc; rfl
      | cons hd tl ih =>
        intro hl acc
        simp only [List.foldl_cons]
        rw [if_neg (hl hd (by simp))]
        exact ih (fun ep hm => hl ep (by simp [hm])) acc
    exact hgen eps h 0
  rw [h0]
  refine ⟨rfl, by simp [testVectors], ?_, ?_⟩
  · rw [runTests_echo t he 0 (testVectors 0) s]
  · rw [runTests_echo t he 0 (testVectors 0) s]
    decide

/-- Witness for C9: a single OUT endpoint, no inbound endpoint, `echoT`. -/
theorem missing_inbound_endpoint_empty_boundary_witness :
    (∀ ep ∈ [(⟨0x01, 2, 64, 0⟩ : Endpoint)], ep.bEndpointAddress ≠ EP_IN) ∧
    LosslessEcho echoT ∧
    (endpoint_config [⟨0x01, 2, 64, 0⟩] = 0 ∧
    ("pkt_size-1 bytes", ([] : List Nat)) ∈
      testVectors (endpoint_config [⟨0x01, 2, 64, 0⟩]) ∧
    (runTests echoT [] (endpoint_config [⟨0x01, 2, 64, 0⟩])
        (testVectors (endpoint_config [⟨0x01, 2, 64, 0⟩]))).2.2 =
      Except.ok ((testVectors 0).map echoResult) ∧
    Op.write EP_OUT [] INTERFACE ∈
      (runTests echoT [] (endpoint_config [⟨0x01, 2, 64, 0⟩])
        (testVectors (endpoint_config [⟨0x01, 2, 64, 0⟩]))).2.1) :=
  ⟨by decide, echoT_lossless,
    missing_inbound_endpoint_empty_boundary echoT [] [⟨0x01, 2, 64, 0⟩]
      (by decide) echoT_lossless⟩

/-- Claim C10: whenever `prepare_device` returns rather than raising, the
interface has been claimed exactly once — `claim_interface` is invoked
unconditionally after the detach attempt, including when that attempt
raised one of the two tolerated exceptions. -/
theorem claim_interface_once_on_return (ds cs : Option PyExc)
    (h : (prepare_device ds cs).2 = Except.ok ()) :
    (prepare_device ds cs).1 = 1 := by
  rcases ds with _ | e
  · rcases cs with _ | c
    · rfl
    · simp [prepare_device] at h
  · rcases e with _ | c | n <;> rcases cs with _ | c2 <;>
      simp_all [prepare_device, toleratedDetachExc]

/-- Witness for C10: a tolerated detach failure followed by a successful
claim. -/
theorem claim_interface_once_on_return_witness :
    (prepare_device (some PyExc.notImplemented) none).2 = Except.ok () ∧
    (prepare_device (some PyExc.notImplemented) none).1 = 1 :=
  ⟨rfl, claim_interface_once_on_return (some PyExc.notImplemented) none rfl⟩

/-- Counterexample to claim C4 as stated: on `faultDevice` the read of
vector 3 stalls, the loop raises, and `release_interface` — which
`ping.py` calls only after the loop, with no `try`/`finally` — is never
reached: the interface stays claimed on this exit path. -/
theorem release_skipped_on_transport_fault :
    (mainRun (some faultDevice)).claimCalls = 1 ∧
    (mainRun (some faultDevice)).released = false ∧
    (mainRun (some faultDevice)).status =
      ExitStatus.uncaughtErr (PingError.transport 32) := by
  decide

/-- Claim C4 (amended): the claimed interface is released only on the
normal exit path — `mainRun` reaches `release_interface` exactly when the
claim step succeeded and the test loop completed without raising; on every
raising path the interface is not released. -/
theorem release_iff_normal_completion {σ : Type} (d : Device σ) :
    (mainRun (some d)).released = true ↔
      ((prepare_device d.detachStep d.claimStep).2 = Except.ok () ∧
        ∃ res, (runTests d.transport d.initState (endpoint_config d.endpoints)
          (testVectors (endpoint_config d.endpoints))).2.2 =
            Except.ok res) := by
  rcases hp : (prepare_device d.detachStep d.claimStep).2 with e | u
  · simp [mainRun, hp]
  · cases u
    rcases hr : (runTests d.transport d.initState (endpoint_config d.endpoints)
        (testVectors (endpoint_config d.endpoints))).2.2 with e | res
    · simp [mainRun, hp, hr]
    · simp [mainRun, hp, hr]
